import Mathlib

/-!
# Verification of the luau-lsp module/path resolution core

This file is a shallow embedding of the two hard source files of the
repository:

* `LSPNavigationContext.cpp` — the navigation state machine used by the
  embedded require-resolution algorithm (`getRealPath`, `getModulePath`,
  `updateRealPaths`, `resetToRequirer`, `jumpToAlias`, `toParent`,
  `toChild`, `getConfigPath`, `getConfigStatus`, `getConfig`,
  `isModulePresent`, `getResolvedPath`, `getFallbackPath`);
* `WorkspaceFileResolver.cpp` — the module-name/URI mapping
  (`getModuleName`, `getUri`) and the memoized configuration resolver
  (`parseConfig`, `readConfigRec`, `clearConfigCache`).

The filesystem and the external Luau library hooks (`Luau::FileUtils`,
`Luau::parseConfig`, the platform mapping) are modelled as explicit
parameters (`NavEnv`, `ResolverEnv`, `Platform`): the code only observes
them through total probe functions, so any instantiation is a possible
world of on-disk contents.

All string manipulation is modelled on the underlying character lists so
that every definition evaluates by kernel reduction.
-/

namespace LuauLsp

/-! ## String helpers (models of `std::string` / `std::string_view` operations) -/

/-- Replace every character of a string through `f`
(models the in-place character loops of the source). -/
def mapChars (f : Char → Char) (s : String) : String :=
  ⟨s.data.map f⟩

/-- Model of the source helper `hasSuffix(str, suffix)`:
`str.size() >= suffix.size() && str.substr(str.size() - suffix.size()) == suffix`. -/
def hasSuffix (str suffix : String) : Bool :=
  suffix.data.isSuffixOf str.data

/-- Model of `string_view::remove_suffix`: drop the last `suffix.length` characters.
Only used where the source has already checked `hasSuffix`. -/
def removeSuffix (str suffix : String) : String :=
  ⟨str.data.take (str.data.length - suffix.data.length)⟩

/-- The substring after the last `/` (the whole string when there is no `/`).
Models `modulePath.substr(modulePath.find_last_of('/') + 1)` in release
builds (where the `LUAU_ASSERT(lastSlash != npos)` check is a no-op). -/
def lastComponentOf (s : String) : String :=
  ⟨(s.data.reverse.takeWhile (fun c => c != '/')).reverse⟩

/-- Number of `/` characters in a string (models the counting loop in `toParent`). -/
def countSlashes (s : String) : Nat :=
  s.data.count '/'

/-- Split a character list at `/` separators (models `Luau::FileUtils` path
component splitting). Always returns a non-empty list of components. -/
def splitSlashes : List Char → List (List Char)
  | [] => [[]]
  | c :: rest =>
    match splitSlashes rest with
    | s :: ss => if c == '/' then [] :: s :: ss else (c :: s) :: ss
    | [] => [[c]]

/-- Join path components with `/` separators. -/
def joinSlashes : List (List Char) → List Char
  | [] => []
  | [s] => s
  | s :: rest => s ++ '/' :: joinSlashes rest

/-- One step of lexical path resolution: skip empty and `.` components,
let `..` pop the previous component (saturating at the root of an absolute
path), push everything else. -/
def resolveStep (isAbs : Bool) (acc : List (List Char)) (comp : List Char) : List (List Char) :=
  if comp == [] || comp == ['.'] then acc
  else if comp == ['.', '.'] then
    match acc.getLast? with
    | some last => if last == ['.', '.'] then acc ++ [comp] else acc.dropLast
    | none => if isAbs then [] else [comp]
  else acc ++ [comp]

/-- Model of `Luau::FileUtils::normalizePath` (external library): convert
backslashes to slashes and lexically resolve `.`, `..` and duplicate
separators, keeping absolute paths absolute. -/
def normalizePath (path : String) : String :=
  let generic := path.data.map (fun c => if c == '\\' then '/' else c)
  let isAbs := generic.head? == some '/'
  let resolved := (splitSlashes generic).foldl (resolveStep isAbs) []
  if isAbs then ⟨'/' :: joinSlashes resolved⟩ else ⟨joinSlashes resolved⟩

/-- Model of `Luau::FileUtils::isAbsolutePath` for generic (slash) paths. -/
def isAbsolutePath (p : String) : Bool :=
  p.data.head? == some '/'

/-! ## Recognized config filenames

`Luau::kConfigName` and `Luau::kLuauConfigName` are constants of the
external Luau library. Modelled from the spec: §3 of the specification
names the two recognized per-directory config files of the navigation
ambiguity check as `.luaurc` and `.luau.config`; `.robloxrc` appears
verbatim in `WorkspaceFileResolver::readConfigRec`. -/

/-- Modelled from the spec: the primary (JSON-like) config filename,
`Luau::kConfigName`. -/
def kConfigName : String := ".luaurc"

/-- Modelled from the spec: the Luau-format config filename,
`Luau::kLuauConfigName`. -/
def kLuauConfigName : String := ".luau.config"

/-- The legacy config filename probed by `readConfigRec` (verbatim in the source). -/
def robloxRcName : String := ".robloxrc"

/-! ## Navigation state machine (`LSPNavigationContext`) -/

/-- Source `Luau::Require::NavigationContext::NavigateResult`. -/
inductive NavigateResult
  | success
  | notFound
  | ambiguous
deriving DecidableEq, Repr

/-- Source `Luau::Require::NavigationContext::ConfigStatus`. -/
inductive ConfigStatus
  | absent
  | presentJson
  | presentLuau
  | ambiguous
deriving DecidableEq, Repr

/-- The filesystem probes used by `LSPNavigationContext`
(`Luau::FileUtils::isFile`, `isDirectory`, `readFile`): an arbitrary
instantiation describes one possible state of the disk. -/
structure NavEnv where
  isFile : String → Bool
  isDirectory : String → Bool
  readFile : String → Option String

/-- The source's `ResolvedRealPath` struct. -/
structure ResolvedRealPath where
  status : NavigateResult
  realPath : String
deriving DecidableEq, Repr

/-- The mutable fields of `LSPNavigationContext`. -/
structure Cursor where
  requirerPath : String
  modulePath : String
  realPath : String
deriving DecidableEq, Repr

/-- Source `getRealPath(modulePath)` from `LSPNavigationContext.cpp`, with the two
statically-bounded probe loops (`kSuffixes`, `kInitSuffixes`) unrolled:

* unless the last component is `init`, probe `modulePath + ".luau"` and
  `modulePath + ".lua"`; two hits is `Ambiguous`;
* if `modulePath` is a directory: a previous suffix hit is `Ambiguous`;
  otherwise probe the two init files, two hits is `Ambiguous`; the
  directory counts as found even with no init file;
* nothing found is `NotFound`; otherwise `Success` with the matched path. -/
def getRealPath (env : NavEnv) (modulePath : String) : ResolvedRealPath :=
  let lastComponent := lastComponentOf modulePath
  let probeSuffixes := lastComponent != "init"
  let hasLuauFile := probeSuffixes && env.isFile (modulePath ++ ".luau")
  let hasLuaFile := probeSuffixes && env.isFile (modulePath ++ ".lua")
  if hasLuauFile && hasLuaFile then ⟨.ambiguous, ""⟩
  else if env.isDirectory modulePath then
    if hasLuauFile || hasLuaFile then ⟨.ambiguous, ""⟩
    else
      let hasInitLuau := env.isFile (modulePath ++ "/init.luau")
      let hasInitLua := env.isFile (modulePath ++ "/init.lua")
      if hasInitLuau && hasInitLua then ⟨.ambiguous, ""⟩
      else if hasInitLuau then ⟨.success, modulePath ++ "/init.luau"⟩
      else if hasInitLua then ⟨.success, modulePath ++ "/init.lua"⟩
      else ⟨.success, modulePath⟩
  else if hasLuauFile then ⟨.success, modulePath ++ ".luau"⟩
  else if hasLuaFile then ⟨.success, modulePath ++ ".lua"⟩
  else ⟨.notFound, ""⟩

/-- Source `LSPNavigationContext::getModulePath`: convert backslashes, then strip
the first matching init-file suffix, else the first matching source suffix
(loops unrolled in source order). -/
def getModulePath (filePath : String) : String :=
  let p := mapChars (fun c => if c == '\\' then '/' else c) filePath
  if hasSuffix p "/init.luau" then removeSuffix p "/init.luau"
  else if hasSuffix p "/init.lua" then removeSuffix p "/init.lua"
  else if hasSuffix p ".luau" then removeSuffix p ".luau"
  else if hasSuffix p ".lua" then removeSuffix p ".lua"
  else p

/-- Source `LSPNavigationContext::updateRealPaths`: on `Ambiguous` return without
touching `realPath`; otherwise store the resolved path (possibly empty for
`NotFound`) and report `Success`. -/
def updateRealPaths (env : NavEnv) (cur : Cursor) : NavigateResult × Cursor :=
  let result := getRealPath env cur.modulePath
  if result.status = .ambiguous then (.ambiguous, cur)
  else (.success, { cur with realPath := result.realPath })

/-- Source `LSPNavigationContext::resetToRequirer` (the
`LUAU_ASSERT(isAbsolutePath(normalizedPath))` is a release no-op). -/
def resetToRequirer (env : NavEnv) (cur : Cursor) : NavigateResult × Cursor :=
  let normalizedPath := normalizePath cur.requirerPath
  let cur' := { cur with modulePath := getModulePath normalizedPath }
  updateRealPaths env cur'

/-- Source `LSPNavigationContext::jumpToAlias`. -/
def jumpToAlias (env : NavEnv) (cur : Cursor) (path : String) : NavigateResult × Cursor :=
  if isAbsolutePath path = false then (.notFound, cur)
  else
    let cur' := { cur with modulePath := getModulePath (normalizePath path) }
    updateRealPaths env cur'

/-- Source `LSPNavigationContext::toParent`: `NotFound` at `"/"` or at a
single-segment path; otherwise step up and demote an `Ambiguous`
projection to `Success`. -/
def toParent (env : NavEnv) (cur : Cursor) : NavigateResult × Cursor :=
  if cur.modulePath = "/" then (.notFound, cur)
  else if countSlashes cur.modulePath = 1 then (.notFound, cur)
  else
    let cur' := { cur with modulePath := normalizePath (cur.modulePath ++ "/..") }
    let result := updateRealPaths env cur'
    (if result.1 = .ambiguous then .success else result.1, result.2)

/-- Source `LSPNavigationContext::toChild`: the reserved component `.config` is
rejected with `NotFound`; otherwise append the component and re-project. -/
def toChild (env : NavEnv) (cur : Cursor) (component : String) : NavigateResult × Cursor :=
  if component = ".config" then (.notFound, cur)
  else
    let cur' := { cur with modulePath := normalizePath (cur.modulePath ++ "/" ++ component) }
    updateRealPaths env cur'

/-- Source `LSPNavigationContext::getConfigPath(filename)`: strip an init-file or
source suffix from `realPath` to obtain the containing directory, then
append the filename. -/
def getConfigPath (cur : Cursor) (filename : String) : String :=
  let d := cur.realPath
  if hasSuffix d "/init.luau" then removeSuffix d "/init.luau" ++ "/" ++ filename
  else if hasSuffix d "/init.lua" then removeSuffix d "/init.lua" ++ "/" ++ filename
  else if hasSuffix d ".luau" then removeSuffix d ".luau" ++ "/" ++ filename
  else if hasSuffix d ".lua" then removeSuffix d ".lua" ++ "/" ++ filename
  else d ++ "/" ++ filename

/-- Source `LSPNavigationContext::getConfigStatus`: probe both recognized config
filenames in the current directory; both present is `Ambiguous`. -/
def getConfigStatus (env : NavEnv) (cur : Cursor) : ConfigStatus :=
  let luaurcExists := env.isFile (getConfigPath cur kConfigName)
  let luauConfigExists := env.isFile (getConfigPath cur kLuauConfigName)
  if luaurcExists && luauConfigExists then .ambiguous
  else if luauConfigExists then .presentLuau
  else if luaurcExists then .presentJson
  else .absent

/-- Outcome of `LSPNavigationContext::getConfig`, with `LUAU_ASSERT` /
`LUAU_UNREACHABLE` failures made explicit. -/
inductive GetConfigOutcome
  | ok (contents : Option String)
  | assertionViolation
deriving DecidableEq, Repr

/-- Source `LSPNavigationContext::getConfig`: asserts the status is one of the
present variants, then reads the matching file's raw contents; the
trailing `LUAU_UNREACHABLE` is the final branch. -/
def getConfig (env : NavEnv) (cur : Cursor) : GetConfigOutcome :=
  let status := getConfigStatus env cur
  if status = .presentJson ∨ status = .presentLuau then
    if status = .presentJson then .ok (env.readFile (getConfigPath cur kConfigName))
    else if status = .presentLuau then .ok (env.readFile (getConfigPath cur kLuauConfigName))
    else .assertionViolation
  else .assertionViolation

/-- Source `LSPNavigationContext::isModulePresent`. -/
def isModulePresent (env : NavEnv) (cur : Cursor) : Bool :=
  env.isFile cur.realPath

/-- Source `LSPNavigationContext::getResolvedPath`. -/
def getResolvedPath (cur : Cursor) : String :=
  cur.realPath

/-- Source `LSPNavigationContext::getFallbackPath`. -/
def getFallbackPath (cur : Cursor) : String :=
  if cur.modulePath = "" then "" else cur.modulePath ++ ".luau"

/-! ## Workspace file resolver: module name / URI mapping -/

/-- Model of the `Uri` value type: a scheme plus a generic (slash) path.
`fsPath().generic_string()` of a file URI is modelled as the stored path. -/
structure Uri where
  scheme : String
  path : String
deriving DecidableEq, Repr

/-- Source `Uri::file`. -/
def Uri.file (p : String) : Uri :=
  ⟨"file", p⟩

/-- Source `Uri::fsPath().generic_string()` for file URIs. -/
def Uri.fsPathGeneric (u : Uri) : String :=
  u.path

/-- Source `Uri::toString` (only the non-file branch of `getModuleName` uses it). -/
def Uri.render (u : Uri) : String :=
  u.scheme ++ "://" ++ u.path

/-- The platform mapping interface consumed by `WorkspaceFileResolver`
(§4.1 of the spec): real path ⇄ virtual path translation. -/
structure Platform where
  resolveToVirtualPath : String → Option String
  resolveToRealPath : String → Option String
  isVirtualPath : String → Bool

/-- Source `WorkspaceFileResolver::getModuleName`: non-file URIs pass through as
opaque names; file URIs map through the platform's real→virtual mapping,
falling back to the real path. -/
def getModuleName (platform : Platform) (name : Uri) : String :=
  if name.scheme ≠ "file" then name.render
  else
    let fsPath := name.fsPathGeneric
    match platform.resolveToVirtualPath fsPath with
    | some virtualPath => virtualPath
    | none => fsPath

/-- Source `WorkspaceFileResolver::getUri`: a recognized virtual path maps to its
real path wrapped as a file URI; otherwise the name is used as the path. -/
def getUri (platform : Platform) (moduleName : String) : Uri :=
  if platform.isVirtualPath moduleName then
    match platform.resolveToRealPath moduleName with
    | some filePath => Uri.file filePath
    | none => Uri.file moduleName
  else Uri.file moduleName

/-! ## Config cache / resolver (`readConfigRec`, `clearConfigCache`)

`std::filesystem::path` is a sequence of components; the embedding
represents an absolute directory path as its list of components with the
deepest component first, so that `parent_path` is `List.tail`, the
filesystem root is `[]`, and `dir / name` is `name :: dir`. This reversed
component list is also used as the (normalized) cache key that
`generic_string` provides in the source. -/

/-- Absolute directory path: components, deepest first; `[]` is the root. -/
abbrev AbsPath := List String

/-- Source `lsp::DiagnosticSeverity`. -/
inductive DiagnosticSeverity
  | error
  | warning
  | information
  | hint
deriving DecidableEq, Repr

/-- The fields of `lsp::Diagnostic` set by `readConfigRec`. -/
structure Diagnostic where
  rangeStart : Nat × Nat
  rangeEnd : Nat × Nat
  message : String
  severity : DiagnosticSeverity
  source : String
deriving DecidableEq, Repr

/-- One `client->publishDiagnostics({uri, version, diagnostics})` event.
The uri is the config file's path (as a component list, deepest first). -/
structure PublishDiagnosticsParams where
  uri : AbsPath
  version : Option Nat
  diagnostics : List Diagnostic
deriving DecidableEq, Repr

/-- The trace of publish events emitted during one resolution. -/
abbrev DiagnosticTrace := List PublishDiagnosticsParams

/-- The diagnostic constructed on a config parse failure: single-position
placeholder range `(0,0)-(0,0)`, `Error` severity, source `"Luau"`. -/
def mkConfigErrorDiagnostic (message : String) : Diagnostic :=
  ⟨(0, 0), (0, 0), message, .error, "Luau"⟩

/-- Source `Luau::ConfigOptions::AliasOptions`. -/
structure AliasOptions where
  configLocation : AbsPath
  overwriteAliases : Bool
deriving DecidableEq, Repr

/-- Source `Luau::ConfigOptions`. -/
structure ConfigOptions where
  aliasOptions : Option AliasOptions
  compat : Bool
deriving DecidableEq, Repr

/-- The collaborators of `WorkspaceFileResolver`'s config resolution: the
process-wide default config, the filesystem (`readFile`), the external
`Luau::parseConfig` (which merges file contents into an inherited config
and reports an optional parse error), and whether a diagnostics client is
attached. `Config` is the Luau configuration value type, kept abstract. -/
structure ResolverEnv (Config : Type) where
  defaultConfig : Config
  readFile : AbsPath → Option String
  luauParseConfig : String → Config → ConfigOptions → Config × Option String
  hasClient : Bool

/-- The memoization table `configCache`, keyed by normalized directory path
(most recent binding first). -/
abbrev ConfigCache (Config : Type) := List (AbsPath × Config)

/-- Lookup in `configCache` (`configCache.find(key)`). -/
def lookupCache {Config : Type} (cache : ConfigCache Config) (path : AbsPath) : Option Config :=
  match cache.find? (fun entry => entry.1 == path) with
  | some entry => some entry.2
  | none => none

/-- Source `configCache[key] = result`: insert-or-shadow. -/
def insertCache {Config : Type} (cache : ConfigCache Config) (path : AbsPath) (value : Config) :
    ConfigCache Config :=
  (path, value) :: cache

/-- Source `WorkspaceFileResolver::parseConfig`: wraps `Luau::parseConfig` with
alias options anchored at the config file's own directory
(`configPath.parent_path()`, i.e. `configPath.tail`) and the given
compatibility flag. -/
def parseConfig {Config : Type} (env : ResolverEnv Config) (configPath : AbsPath)
    (contents : String) (result : Config) (compat : Bool) : Config × Option String :=
  env.luauParseConfig contents result ⟨some ⟨configPath.tail, true⟩, compat⟩

/-- The diagnostics side effect of one config-file read: with a client
attached, a parse error publishes exactly one error diagnostic for the
config file's URI and a successful parse publishes an empty list (clearing
previous diagnostics); without a client nothing is published. -/
def publishConfigDiagnostics {Config : Type} (env : ResolverEnv Config) (uri : AbsPath)
    (err : Option String) : DiagnosticTrace :=
  if env.hasClient then
    match err with
    | some e => [⟨uri, none, [mkConfigErrorDiagnostic e]⟩]
    | none => [⟨uri, none, []⟩]
  else []

/-- The non-recursive tail of `readConfigRec`, operating on the parent's
already-resolved `(config, cache, trace)`: try `dir / kConfigName` first,
fall back to `dir / .robloxrc` (parsed in compatibility mode), merge into
the inherited config, publish diagnostics, and memoize the result. -/
def readConfigStep {Config : Type} (env : ResolverEnv Config) (path : AbsPath)
    (inherited : Config × ConfigCache Config × DiagnosticTrace) :
    Config × ConfigCache Config × DiagnosticTrace :=
  let result0 := inherited.1
  let cache1 := inherited.2.1
  let events1 := inherited.2.2
  let configPath := kConfigName :: path
  let robloxRcPath := robloxRcName :: path
  match env.readFile configPath with
  | some contents =>
    let parsed := parseConfig env configPath contents result0 false
    (parsed.1, insertCache cache1 path parsed.1,
      events1 ++ publishConfigDiagnostics env configPath parsed.2)
  | none =>
    match env.readFile robloxRcPath with
    | some contents =>
      let parsed := parseConfig env robloxRcPath contents result0 true
      (parsed.1, insertCache cache1 path parsed.1,
        events1 ++ publishConfigDiagnostics env robloxRcPath parsed.2)
    | none => (result0, insertCache cache1 path result0, events1)

/-- Source `WorkspaceFileResolver::readConfigRec`: memoized per directory; a cache
hit returns the stored value untouched; otherwise the parent directory's
config is resolved first (the process-wide default at the root) and the
local config files are merged in by `readConfigStep`. Returns the config,
the updated cache and the trace of publish events. -/
def readConfigRec {Config : Type} (env : ResolverEnv Config) :
    AbsPath → ConfigCache Config → Config × ConfigCache Config × DiagnosticTrace
  | [], cache =>
    match lookupCache cache [] with
    | some config => (config, cache, [])
    | none => readConfigStep env [] (env.defaultConfig, cache, [])
  | seg :: parent, cache =>
    match lookupCache cache (seg :: parent) with
    | some config => (config, cache, [])
    | none => readConfigStep env (seg :: parent) (readConfigRec env parent cache)

/-- The parent directory's already-resolved config, as `readConfigRec`
computes it: the process-wide default at the root. -/
def inheritedConfig {Config : Type} (env : ResolverEnv Config) (dir : AbsPath)
    (cache : ConfigCache Config) : Config :=
  match dir with
  | [] => env.defaultConfig
  | _ :: parent => (readConfigRec env parent cache).1

/-- Source `WorkspaceFileResolver::clearConfigCache`. -/
def clearConfigCache {Config : Type} (_cache : ConfigCache Config) : ConfigCache Config :=
  []

/-- The publish events of a trace addressed to a given URI. -/
def eventsFor (uri : AbsPath) (events : DiagnosticTrace) : DiagnosticTrace :=
  events.filter (fun ev => ev.uri == uri)

/-! ## Behavioral probes for the two config-filename sets (claim C2)

Whether each layer recognizes a given filename is observed through the
functions themselves: a world whose only file is `filename` in the probed
directory. -/

/-- Does the navigation ambiguity check (`getConfigStatus`) recognize a
config file named `filename`? The cursor sits on module `/d/x` (resolved
to `/d/x.luau`), so `getConfigPath` probes directory `/d/x`; the
filesystem contains exactly `/d/x/<filename>`. -/
def navRecognizesConfigFile (filename : String) : Bool :=
  let env : NavEnv :=
    { isFile := fun p => p == "/d/x/" ++ filename
      isDirectory := fun _ => false
      readFile := fun p => if p == "/d/x/" ++ filename then some "contents" else none }
  let cur : Cursor := ⟨"/d/x.luau", "/d/x", "/d/x.luau"⟩
  getConfigStatus env cur != .absent

/-- Does the config cache lookup (`readConfigRec`) read a config file named
`filename`? The filesystem contains exactly `/d/<filename>`; parsing any
contents flips the `Bool` config from the default `false` to `true`, so
the file was read iff the resolved config for `/d` is `true`. -/
def cacheReadsConfigFile (filename : String) : Bool :=
  let env : ResolverEnv Bool :=
    { defaultConfig := false
      readFile := fun p => if p == [filename, "d"] then some "contents" else none
      luauParseConfig := fun _ _ _ => (true, none)
      hasClient := false }
  (readConfigRec env ["d"] []).1

/-! ## Concrete worlds used by witnesses and counterexamples -/

/-- A disk holding exactly the two files `/proj/x.luau` and `/proj/x.lua`. -/
def fsBothSuffixFiles : NavEnv :=
  { isFile := fun p => p == "/proj/x.luau" || p == "/proj/x.lua"
    isDirectory := fun _ => false
    readFile := fun _ => none }

/-- A disk holding the file `/proj/x.luau` and the directory `/proj/x`
(which contains no init file). -/
def fsFileAndDirectory : NavEnv :=
  { isFile := fun p => p == "/proj/x.luau"
    isDirectory := fun p => p == "/proj/x"
    readFile := fun _ => none }

/-- A disk holding exactly `/a.luau` and `/a.lua`, making the parent of
module `/a/b` an ambiguous navigation target. -/
def fsParentAmbiguous : NavEnv :=
  { isFile := fun p => p == "/a.luau" || p == "/a.lua"
    isDirectory := fun _ => false
    readFile := fun _ => none }

/-- A disk holding exactly the config file `/d/x/.luaurc` with contents
`"cfg"`. -/
def fsWithLuaurc : NavEnv :=
  { isFile := fun p => p == "/d/x/.luaurc"
    isDirectory := fun _ => false
    readFile := fun p => if p == "/d/x/.luaurc" then some "cfg" else none }

/-- A cursor positioned on module `/d/x`, resolved to `/d/x.luau`. -/
def cursorAtDX : Cursor := ⟨"/d/x.luau", "/d/x", "/d/x.luau"⟩

/-- A platform with the single virtual mapping
`/w/game.luau ⇄ game/Main`. -/
def platformFixture : Platform :=
  { resolveToVirtualPath := fun s => if s == "/w/game.luau" then some "game/Main" else none
    resolveToRealPath := fun s => if s == "game/Main" then some "/w/game.luau" else none
    isVirtualPath := fun s => s == "game/Main" }

/-- A resolver world (over `Config := Bool`) whose directory `/d` holds
both config formats; parsing returns `true` exactly when the primary
file's contents `"primary"` were parsed. -/
def resolverBothFormats : ResolverEnv Bool :=
  { defaultConfig := false
    readFile := fun p =>
      if p == [kConfigName, "d"] then some "primary"
      else if p == [robloxRcName, "d"] then some "legacy"
      else none
    luauParseConfig := fun contents _ _ => (contents == "primary", none)
    hasClient := false }

/-- A resolver world (over `Config := Bool`) whose directory `/d` holds a
primary config file that fails to parse with error `"bad"`. -/
def resolverBadConfig : ResolverEnv Bool :=
  { defaultConfig := false
    readFile := fun p => if p == [kConfigName, "d"] then some "broken" else none
    luauParseConfig := fun _ cfg _ => (cfg, some "bad")
    hasClient := true }

/-- The same world after the config file was fixed: parsing now succeeds. -/
def resolverFixedConfig : ResolverEnv Bool :=
  { defaultConfig := false
    readFile := fun p => if p == [kConfigName, "d"] then some "fixed" else none
    luauParseConfig := fun _ _ _ => (true, none)
    hasClient := true }

/-- A resolver world (over `Config := Bool`) in which every directory holds
a parseable primary config that would resolve to `true`. -/
def resolverEverywhereTrue : ResolverEnv Bool :=
  { defaultConfig := false
    readFile := fun p => if p.head? == some kConfigName then some "cfg" else none
    luauParseConfig := fun _ _ _ => (true, none)
    hasClient := false }

/-! ## Helper lemmas -/

/-- Every event published by `publishConfigDiagnostics` is addressed to the
config file it was called for. -/
lemma mem_publishConfigDiagnostics {Config : Type} (env : ResolverEnv Config)
    (uri : AbsPath) (err : Option String) (ev : PublishDiagnosticsParams)
    (hmem : ev ∈ publishConfigDiagnostics env uri err) : ev.uri = uri := by
  unfold publishConfigDiagnostics at hmem
  split at hmem
  · cases err <;> simp_all
  · simp_all

/-- Every event in the trace of `readConfigRec env dir cache` is addressed
to a config file of `dir` or of one of its ancestors, so its uri has at
most `dir.length + 1` components. -/
lemma readConfigRec_event_uri_length {Config : Type} (env : ResolverEnv Config) :
    ∀ (dir : AbsPath) (cache : ConfigCache Config) (ev : PublishDiagnosticsParams),
      ev ∈ (readConfigRec env dir cache).2.2 → ev.uri.length ≤ dir.length + 1 := by
  intro dir
  induction dir with
  | nil =>
    intro cache ev hmem
    simp only [readConfigRec] at hmem
    split at hmem
    · simp at hmem
    · simp only [readConfigStep] at hmem
      split at hmem
      · simp only [List.nil_append] at hmem
        have := mem_publishConfigDiagnostics _ _ _ _ hmem
        simp [this]
      · split at hmem
        · simp only [List.nil_append] at hmem
          have := mem_publishConfigDiagnostics _ _ _ _ hmem
          simp [this]
        · simp at hmem
  | cons seg parent ih =>
    intro cache ev hmem
    simp only [readConfigRec] at hmem
    split at hmem
    · simp at hmem
    · simp only [readConfigStep] at hmem
      split at hmem
      · rw [List.mem_append] at hmem
        rcases hmem with hmem | hmem
        · have := ih cache ev hmem
          simp only [List.length_cons]
          omega
        · have := mem_publishConfigDiagnostics _ _ _ _ hmem
          simp [this]
      · split at hmem
        · rw [List.mem_append] at hmem
          rcases hmem with hmem | hmem
          · have := ih cache ev hmem
            simp only [List.length_cons]
            omega
          · have := mem_publishConfigDiagnostics _ _ _ _ hmem
            simp [this]
        · have := ih cache ev hmem
          simp only [List.length_cons]
          omega

/-- Ancestor events never target a config file of the directory itself:
their uris are strictly shorter. -/
lemma eventsFor_parent_filter_nil {Config : Type} (env : ResolverEnv Config)
    (parent : AbsPath) (cache : ConfigCache Config) (name seg : String) :
    eventsFor (name :: seg :: parent) (readConfigRec env parent cache).2.2 = [] := by
  rw [eventsFor, List.filter_eq_nil_iff]
  intro ev hmem
  have hlen := readConfigRec_event_uri_length env parent cache ev hmem
  simp only [beq_iff_eq]
  intro hceq
  rw [hceq] at hlen
  simp only [List.length_cons] at hlen
  omega

/-- Looking up the just-inserted key returns the just-inserted value. -/
lemma lookupCache_insertCache {Config : Type} (cache : ConfigCache Config)
    (path : AbsPath) (value : Config) :
    lookupCache (insertCache cache path value) path = some value := by
  simp [lookupCache, insertCache, List.find?]

/-- Filtering a trace by URI distributes over concatenation. -/
lemma eventsFor_append (uri : AbsPath) (a b : DiagnosticTrace) :
    eventsFor uri (a ++ b) = eventsFor uri a ++ eventsFor uri b := by
  simp [eventsFor, List.filter_append]

/-- Lemma: `readConfigStep` memoizes exactly the config it returns. -/
lemma readConfigStep_memoizes {Config : Type} (env : ResolverEnv Config) (path : AbsPath)
    (inherited : Config × ConfigCache Config × DiagnosticTrace) :
    (readConfigStep env path inherited).2.1 =
      insertCache inherited.2.1 path (readConfigStep env path inherited).1 := by
  cases h1 : env.readFile (kConfigName :: path) with
  | some contents => simp [readConfigStep, h1]
  | none =>
    cases h2 : env.readFile (robloxRcName :: path) with
    | some contents => simp [readConfigStep, h1, h2]
    | none => simp [readConfigStep, h1, h2]

/-! ## Claim theorems -/

/-- C9. Reserved component rejection: for every filesystem content and
every cursor state, `toChild(".config")` returns `NotFound` and leaves the
cursor untouched, so the `.config` component is never reachable as a
child. -/
theorem c9_config_component_rejected (env : NavEnv) (cur : Cursor) :
    toChild env cur ".config" = (.notFound, cur) := by
  simp [toChild]

/-- C5. Upward-navigation ambiguity demotion: whenever the real-path
projection after stepping up would report `Ambiguous`, `toParent` returns
`Success` instead; and at the root (a single-segment logical path, or the
bare `"/"`), `toParent` returns `NotFound` without moving. -/
theorem c5_toParent_demotes_ambiguity :
    (∀ (env : NavEnv) (cur : Cursor),
      countSlashes cur.modulePath ≠ 1 →
      (getRealPath env (normalizePath (cur.modulePath ++ "/.."))).status = .ambiguous →
      (toParent env cur).1 = .success) ∧
    (∀ (env : NavEnv) (cur : Cursor),
      countSlashes cur.modulePath = 1 ∨ cur.modulePath = "/" →
      toParent env cur = (.notFound, cur)) := by
  constructor
  · intro env cur hcount hproj
    have hroot : cur.modulePath ≠ "/" := by
      intro h
      apply hcount
      rw [h]
      decide
    simp [toParent, hroot, hcount, updateRealPaths, hproj]
  · intro env cur h
    rcases h with h | h
    · by_cases hroot : cur.modulePath = "/"
      · simp [toParent, hroot]
      · simp [toParent, hroot, h]
    · simp [toParent, h]

/-- C7. `getConfig` precondition safety: when the status is `PresentJson`
or `PresentLuau`, `getConfig` returns the matching config file's raw
contents (the trailing unreachable branch is never taken); when the status
is `Absent` or `Ambiguous` the `LUAU_ASSERT` precondition is violated. -/
theorem c7_getConfig_precondition (env : NavEnv) (cur : Cursor) :
    (getConfigStatus env cur = .presentJson →
      getConfig env cur = .ok (env.readFile (getConfigPath cur kConfigName))) ∧
    (getConfigStatus env cur = .presentLuau →
      getConfig env cur = .ok (env.readFile (getConfigPath cur kLuauConfigName))) ∧
    (getConfigStatus env cur = .absent → getConfig env cur = .assertionViolation) ∧
    (getConfigStatus env cur = .ambiguous → getConfig env cur = .assertionViolation) := by
  refine ⟨?_, ?_, ?_, ?_⟩ <;> intro h <;> simp [getConfig, h]

/-- C7 witness: in the world holding exactly `/d/x/.luaurc` with contents
`"cfg"`, the status is `PresentJson` and `getConfig` returns the raw
contents. -/
theorem c7_witness : getConfig fsWithLuaurc cursorAtDX = .ok (some "cfg") := by
  have h := (c7_getConfig_precondition fsWithLuaurc cursorAtDX).1 (by decide)
  rw [h]
  decide

/-- C10. Frame property on ambiguity: whenever a navigation step's
real-path projection reports `Ambiguous`, the cursor's `realPath` field
keeps its previous value (`updateRealPaths` returns before assigning it),
so `getResolvedPath` and `isModulePresent` still reflect the last
successful projection. -/
theorem c10_ambiguous_preserves_realPath :
    (∀ (env : NavEnv) (cur : Cursor),
      (updateRealPaths env cur).1 = .ambiguous → (updateRealPaths env cur).2 = cur) ∧
    (∀ (env : NavEnv) (cur : Cursor) (component : String),
      (toChild env cur component).1 = .ambiguous →
      (toChild env cur component).2.realPath = cur.realPath ∧
      getResolvedPath (toChild env cur component).2 = cur.realPath ∧
      isModulePresent env (toChild env cur component).2 = env.isFile cur.realPath) ∧
    (∀ (env : NavEnv) (cur : Cursor),
      (getRealPath env (normalizePath (cur.modulePath ++ "/.."))).status = .ambiguous →
      (toParent env cur).2.realPath = cur.realPath) ∧
    (∀ (env : NavEnv) (cur : Cursor) (path : String),
      (jumpToAlias env cur path).1 = .ambiguous →
      (jumpToAlias env cur path).2.realPath = cur.realPath) ∧
    (∀ (env : NavEnv) (cur : Cursor),
      (resetToRequirer env cur).1 = .ambiguous →
      (resetToRequirer env cur).2.realPath = cur.realPath) := by
  have hcore : ∀ (env : NavEnv) (cur : Cursor),
      (updateRealPaths env cur).1 = .ambiguous → (updateRealPaths env cur).2 = cur := by
    intro env cur h
    by_cases hs : (getRealPath env cur.modulePath).status = .ambiguous
    · simp [updateRealPaths, hs]
    · simp [updateRealPaths, hs] at h
  refine ⟨hcore, ?_, ?_, ?_, ?_⟩
  · intro env cur component h
    by_cases hc : component = ".config"
    · simp [toChild, hc] at h
    · simp only [toChild, hc, if_false] at h ⊢
      have := hcore env _ h
      rw [this]
      exact ⟨rfl, rfl, rfl⟩
  · intro env cur hproj
    by_cases hroot : cur.modulePath = "/"
    · simp [toParent, hroot]
    · by_cases hone : countSlashes cur.modulePath = 1
      · simp [toParent, hroot, hone]
      · simp only [toParent, hroot, hone, if_false]
        have hamb : (updateRealPaths env
            { cur with modulePath := normalizePath (cur.modulePath ++ "/..") }).1 =
            .ambiguous := by
          simp [updateRealPaths, hproj]
        have := hcore env _ hamb
        rw [this]
  · intro env cur path h
    by_cases habs : isAbsolutePath path = false
    · simp [jumpToAlias, habs]
    · have habs' : isAbsolutePath path = true := by
        revert habs
        cases isAbsolutePath path <;> simp
      simp [jumpToAlias, habs'] at h ⊢
      rw [hcore env _ h]
  · intro env cur h
    unfold resetToRequirer at h ⊢
    have := hcore env _ h
    rw [this]

/-- C10 witness: with `/proj/x.luau` and `/proj/x.lua` both on disk,
`toChild "x"` is ambiguous and the previous `realPath` (`"OLD"`) is kept. -/
theorem c10_witness :
    (toChild fsBothSuffixFiles ⟨"/proj/a.luau", "/proj", "OLD"⟩ "x").2.realPath = "OLD" :=
  (c10_ambiguous_preserves_realPath.2.1 fsBothSuffixFiles
    ⟨"/proj/a.luau", "/proj", "OLD"⟩ "x" (by decide)).1

/-- C5 witness: with `/a.luau` and `/a.lua` both on disk, stepping up from
module `/a/b` has an ambiguous projection, yet `toParent` succeeds. -/
theorem c5_witness :
    (toParent fsParentAmbiguous ⟨"/a/b.luau", "/a/b", "/a/b.luau"⟩).1 = .success :=
  c5_toParent_demotes_ambiguity.1 fsParentAmbiguous
    ⟨"/a/b.luau", "/a/b", "/a/b.luau"⟩ (by decide) (by decide)

/-- C8. Module name / URI round trip: for a real path `p` with a virtual
mapping `v` (the platform maps `p` to `v`, recognizes `v` as virtual, and
maps `v` back to `p`), `getUri (getModuleName (Uri::file p)) = Uri::file p`
and `getModuleName (getUri v) = v`. -/
theorem c8_roundtrip (platform : Platform) (p v : String)
    (h1 : platform.resolveToVirtualPath p = some v)
    (h2 : platform.resolveToRealPath v = some p)
    (h3 : platform.isVirtualPath v = true) :
    getUri platform (getModuleName platform (Uri.file p)) = Uri.file p ∧
    getModuleName platform (getUri platform v) = v := by
  have hname : getModuleName platform (Uri.file p) = v := by
    simp [getModuleName, Uri.file, Uri.fsPathGeneric, h1]
  have huri : getUri platform v = Uri.file p := by
    simp [getUri, h3, h2]
  constructor
  · rw [hname, huri]
  · rw [huri, hname]

/-- C8 witness: the concrete mapping `/w/game.luau ⇄ game/Main` round-trips
both ways. -/
theorem c8_witness :
    getUri platformFixture (getModuleName platformFixture (Uri.file "/w/game.luau")) =
      Uri.file "/w/game.luau" ∧
    getModuleName platformFixture (getUri platformFixture "game/Main") = "game/Main" :=
  c8_roundtrip platformFixture "/w/game.luau" "game/Main" (by decide) (by decide) (by decide)

/-- C1 counterexample: in the world `fsFileAndDirectory`, the path
`/proj/x` is a directory containing no init file, yet the projection is
`Ambiguous` rather than `Success` (the coexisting suffix-matched file
`/proj/x.luau` triggers ambiguity), refuting the claim that a directory
without any init file still counts as present. -/
theorem c1_counterexample :
    fsFileAndDirectory.isDirectory "/proj/x" = true ∧
    fsFileAndDirectory.isFile ("/proj/x" ++ "/init.luau") = false ∧
    fsFileAndDirectory.isFile ("/proj/x" ++ "/init.lua") = false ∧
    fsFileAndDirectory.isFile ("/proj/x" ++ ".luau") = true ∧
    fsFileAndDirectory.isFile ("/proj/x" ++ ".lua") = false ∧
    (getRealPath fsFileAndDirectory "/proj/x").status ≠ NavigateResult.success ∧
    (getRealPath fsFileAndDirectory "/proj/x").status = NavigateResult.ambiguous := by
  decide

/-- C1 (amended). Real-path projection characterization of
`getRealPath`: unless the last component is `init`, the two source
suffixes are probed as direct files — two hits is `Ambiguous`, and a
single hit combined with the path existing as a directory (even one
without init files) is also `Ambiguous`; a directory alone is probed for
the two init conventions — two init files is `Ambiguous`, one init file
resolves to it, none still counts as present (`Success` on the bare
path); a single suffix hit with no directory resolves to that file; and
nothing at all is `NotFound`. When the last component is `init` the
direct-file probe is skipped entirely. Consequently, for a directory
containing both `x.luau` and `x.lua`, `toChild "x"` yields `Ambiguous`,
never `Success`. -/
theorem c1_realpath_projection :
    (∀ (env : NavEnv) (p : String), lastComponentOf p ≠ "init" →
      ((env.isFile (p ++ ".luau") = true → env.isFile (p ++ ".lua") = true →
          getRealPath env p = ⟨.ambiguous, ""⟩) ∧
       ((env.isFile (p ++ ".luau") = true ∨ env.isFile (p ++ ".lua") = true) →
          env.isDirectory p = true → getRealPath env p = ⟨.ambiguous, ""⟩) ∧
       (env.isFile (p ++ ".luau") = false → env.isFile (p ++ ".lua") = false →
          env.isDirectory p = true → env.isFile (p ++ "/init.luau") = true →
          env.isFile (p ++ "/init.lua") = true → getRealPath env p = ⟨.ambiguous, ""⟩) ∧
       (env.isFile (p ++ ".luau") = true → env.isFile (p ++ ".lua") = false →
          env.isDirectory p = false → getRealPath env p = ⟨.success, p ++ ".luau"⟩) ∧
       (env.isFile (p ++ ".luau") = false → env.isFile (p ++ ".lua") = true →
          env.isDirectory p = false → getRealPath env p = ⟨.success, p ++ ".lua"⟩) ∧
       (env.isFile (p ++ ".luau") = false → env.isFile (p ++ ".lua") = false →
          env.isDirectory p = true → env.isFile (p ++ "/init.luau") = true →
          env.isFile (p ++ "/init.lua") = false →
          getRealPath env p = ⟨.success, p ++ "/init.luau"⟩) ∧
       (env.isFile (p ++ ".luau") = false → env.isFile (p ++ ".lua") = false →
          env.isDirectory p = true → env.isFile (p ++ "/init.luau") = false →
          env.isFile (p ++ "/init.lua") = true →
          getRealPath env p = ⟨.success, p ++ "/init.lua"⟩) ∧
       (env.isFile (p ++ ".luau") = false → env.isFile (p ++ ".lua") = false →
          env.isDirectory p = true → env.isFile (p ++ "/init.luau") = false →
          env.isFile (p ++ "/init.lua") = false → getRealPath env p = ⟨.success, p⟩) ∧
       (env.isFile (p ++ ".luau") = false → env.isFile (p ++ ".lua") = false →
          env.isDirectory p = false → getRealPath env p = ⟨.notFound, ""⟩))) ∧
    (∀ (env : NavEnv) (p : String), lastComponentOf p = "init" →
      ((env.isDirectory p = true → env.isFile (p ++ "/init.luau") = true →
          env.isFile (p ++ "/init.lua") = true → getRealPath env p = ⟨.ambiguous, ""⟩) ∧
       (env.isDirectory p = true → env.isFile (p ++ "/init.luau") = true →
          env.isFile (p ++ "/init.lua") = false →
          getRealPath env p = ⟨.success, p ++ "/init.luau"⟩) ∧
       (env.isDirectory p = true → env.isFile (p ++ "/init.luau") = false →
          env.isFile (p ++ "/init.lua") = true →
          getRealPath env p = ⟨.success, p ++ "/init.lua"⟩) ∧
       (env.isDirectory p = true → env.isFile (p ++ "/init.luau") = false →
          env.isFile (p ++ "/init.lua") = false → getRealPath env p = ⟨.success, p⟩) ∧
       (env.isDirectory p = false → getRealPath env p = ⟨.notFound, ""⟩))) ∧
    (∀ (env : NavEnv) (cur : Cursor),
      lastComponentOf (normalizePath (cur.modulePath ++ "/" ++ "x")) ≠ "init" →
      env.isFile (normalizePath (cur.modulePath ++ "/" ++ "x") ++ ".luau") = true →
      env.isFile (normalizePath (cur.modulePath ++ "/" ++ "x") ++ ".lua") = true →
      (toChild env cur "x").1 = .ambiguous) := by
  refine ⟨?_, ?_, ?_⟩
  · intro env p hinit
    have hinit' : (lastComponentOf p != "init") = true := by
      simp only [bne_iff_ne, ne_eq]
      exact hinit
    refine ⟨?_, ?_, ?_, ?_, ?_, ?_, ?_, ?_, ?_⟩
    · intro hA hB
      simp [getRealPath, hinit', hA, hB]
    · intro hor hD
      rcases hor with hA | hB
      · cases hB' : env.isFile (p ++ ".lua") <;> simp [getRealPath, hinit', hA, hB', hD]
      · cases hA' : env.isFile (p ++ ".luau") <;> simp [getRealPath, hinit', hA', hB, hD]
    · intro hA hB hD hI1 hI2
      simp [getRealPath, hinit', hA, hB, hD, hI1, hI2]
    · intro hA hB hD
      simp [getRealPath, hinit', hA, hB, hD]
    · intro hA hB hD
      simp [getRealPath, hinit', hA, hB, hD]
    · intro hA hB hD hI1 hI2
      simp [getRealPath, hinit', hA, hB, hD, hI1, hI2]
    · intro hA hB hD hI1 hI2
      simp [getRealPath, hinit', hA, hB, hD, hI1, hI2]
    · intro hA hB hD hI1 hI2
      simp [getRealPath, hinit', hA, hB, hD, hI1, hI2]
    · intro hA hB hD
      simp [getRealPath, hinit', hA, hB, hD]
  · intro env p hinit
    refine ⟨?_, ?_, ?_, ?_, ?_⟩
    · intro hD hI1 hI2
      simp [getRealPath, hinit, hD, hI1, hI2]
    · intro hD hI1 hI2
      simp [getRealPath, hinit, hD, hI1, hI2]
    · intro hD hI1 hI2
      simp [getRealPath, hinit, hD, hI1, hI2]
    · intro hD hI1 hI2
      simp [getRealPath, hinit, hD, hI1, hI2]
    · intro hD
      simp [getRealPath, hinit, hD]
  · intro env cur hlast hA hB
    have hlast' : (lastComponentOf (normalizePath (cur.modulePath ++ "/" ++ "x")) != "init")
        = true := by
      simp only [bne_iff_ne, ne_eq]
      exact hlast
    have hamb : getRealPath env (normalizePath (cur.modulePath ++ "/" ++ "x")) =
        ⟨.ambiguous, ""⟩ := by
      simp [getRealPath, hlast', hA, hB]
    simp [toChild, updateRealPaths, hamb]

/-- C1 witness: with `/proj/x.luau` and `/proj/x.lua` both on disk, the
projection of `/proj/x` is `Ambiguous`. -/
theorem c1_witness : getRealPath fsBothSuffixFiles "/proj/x" = ⟨.ambiguous, ""⟩ :=
  (c1_realpath_projection.1 fsBothSuffixFiles "/proj/x" (by decide)).1 (by decide) (by decide)

/-- C3. Config inheritance with primary-format preference: for an uncached
directory, if the primary config file is readable its contents are merged
into the parent's already-resolved config regardless of the legacy file
(first success wins, no ambiguity at this layer); if only the legacy file
is readable it is merged in compatibility mode; with no local config file
the directory receives exactly its parent's resolved config; at the
filesystem root the inherited starting point is the process-wide default. -/
theorem c3_inheritance_with_preference :
    (∀ (Config : Type) (env : ResolverEnv Config) (seg : String) (parent : AbsPath)
        (cache : ConfigCache Config) (contents : String),
      lookupCache cache (seg :: parent) = none →
      env.readFile (kConfigName :: seg :: parent) = some contents →
      (readConfigRec env (seg :: parent) cache).1 =
        (parseConfig env (kConfigName :: seg :: parent) contents
          (readConfigRec env parent cache).1 false).1) ∧
    (∀ (Config : Type) (env : ResolverEnv Config) (seg : String) (parent : AbsPath)
        (cache : ConfigCache Config),
      lookupCache cache (seg :: parent) = none →
      env.readFile (kConfigName :: seg :: parent) = none →
      env.readFile (robloxRcName :: seg :: parent) = none →
      (readConfigRec env (seg :: parent) cache).1 = (readConfigRec env parent cache).1) ∧
    (∀ (Config : Type) (env : ResolverEnv Config) (seg : String) (parent : AbsPath)
        (cache : ConfigCache Config) (contents : String),
      lookupCache cache (seg :: parent) = none →
      env.readFile (kConfigName :: seg :: parent) = none →
      env.readFile (robloxRcName :: seg :: parent) = some contents →
      (readConfigRec env (seg :: parent) cache).1 =
        (parseConfig env (robloxRcName :: seg :: parent) contents
          (readConfigRec env parent cache).1 true).1) ∧
    (∀ (Config : Type) (env : ResolverEnv Config) (cache : ConfigCache Config),
      lookupCache cache [] = none →
      env.readFile [kConfigName] = none →
      env.readFile [robloxRcName] = none →
      (readConfigRec env [] cache).1 = env.defaultConfig) := by
  refine ⟨?_, ?_, ?_, ?_⟩
  · intro Config env seg parent cache contents hmiss hread
    simp [readConfigRec, hmiss, readConfigStep, hread]
  · intro Config env seg parent cache hmiss hread1 hread2
    simp [readConfigRec, hmiss, readConfigStep, hread1, hread2]
  · intro Config env seg parent cache contents hmiss hread1 hread2
    simp [readConfigRec, hmiss, readConfigStep, hread1, hread2]
  · intro Config env cache hmiss hread1 hread2
    simp [readConfigRec, hmiss, readConfigStep, hread1, hread2]

/-- C3 witness: in the world whose directory `/d` holds both config
formats, the resolved config is the primary file's parse result (which
evaluates to `true`, the marker for "parsed the primary contents"). -/
theorem c3_witness :
    (readConfigRec resolverBothFormats ["d"] []).1 =
      (parseConfig resolverBothFormats (kConfigName :: ["d"]) "primary"
        (readConfigRec resolverBothFormats [] []).1 false).1 :=
  c3_inheritance_with_preference.1 Bool resolverBothFormats "d" [] [] "primary"
    (by decide) (by decide)

/-- C4. Config cache invariant: a cache hit returns the memoized value
with the cache untouched and no diagnostics, for every filesystem state
(stale values are returned without re-reading); a computed config is
memoized under its directory key before being returned; `clearConfigCache`
drops all entries; and resolution after a clear is independent of whatever
was cached before. -/
theorem c4_cache_invariant :
    (∀ (Config : Type) (env : ResolverEnv Config) (dir : AbsPath)
        (cache : ConfigCache Config) (value : Config),
      lookupCache cache dir = some value →
      readConfigRec env dir cache = (value, cache, [])) ∧
    (∀ (Config : Type) (env : ResolverEnv Config) (dir : AbsPath)
        (cache : ConfigCache Config),
      lookupCache (readConfigRec env dir cache).2.1 dir = some (readConfigRec env dir cache).1) ∧
    (∀ (Config : Type) (cache : ConfigCache Config), clearConfigCache cache = []) ∧
    (∀ (Config : Type) (env : ResolverEnv Config) (dir : AbsPath)
        (cache cache' : ConfigCache Config),
      readConfigRec env dir (clearConfigCache cache) =
        readConfigRec env dir (clearConfigCache cache')) := by
  refine ⟨?_, ?_, ?_, ?_⟩
  · intro Config env dir cache value h
    cases dir <;> simp [readConfigRec, h]
  · intro Config env dir cache
    cases dir with
    | nil =>
      cases h : lookupCache cache [] with
      | some value => simp [readConfigRec, h]
      | none =>
        simp only [readConfigRec, h]
        rw [readConfigStep_memoizes]
        exact lookupCache_insertCache _ _ _
    | cons seg parent =>
      cases h : lookupCache cache (seg :: parent) with
      | some value => simp [readConfigRec, h]
      | none =>
        simp only [readConfigRec, h]
        rw [readConfigStep_memoizes]
        exact lookupCache_insertCache _ _ _
  · intro Config cache
    rfl
  · intro Config env dir cache cache'
    rfl

/-- C4 witness: with `(/d, false)` memoized, resolution for `/d` returns
the stale `false` unchanged even though the current filesystem would
resolve every directory to `true`. -/
theorem c4_witness :
    readConfigRec resolverEverywhereTrue ["d"] [(["d"], false)] =
      (false, [(["d"], false)], []) :=
  c4_cache_invariant.1 Bool resolverEverywhereTrue ["d"] [(["d"], false)] false (by decide)

/-- C6. Diagnostic lifecycle: for an uncached directory with an attached
client, reading a config file whose parse fails publishes exactly one
diagnostic for that config file's URI — placeholder range `(0,0)-(0,0)`,
`Error` severity, source `"Luau"` — and a successful parse publishes the
empty list for that URI, clearing any previous diagnostic; this holds for
the primary file and for the legacy `.robloxrc` fallback. -/
theorem c6_diagnostic_lifecycle :
    (∀ (Config : Type) (env : ResolverEnv Config) (dir : AbsPath)
        (cache : ConfigCache Config) (contents e : String),
      env.hasClient = true →
      lookupCache cache dir = none →
      env.readFile (kConfigName :: dir) = some contents →
      (parseConfig env (kConfigName :: dir) contents (inheritedConfig env dir cache) false).2 =
        some e →
      eventsFor (kConfigName :: dir) (readConfigRec env dir cache).2.2 =
        [⟨kConfigName :: dir, none, [mkConfigErrorDiagnostic e]⟩]) ∧
    (∀ (Config : Type) (env : ResolverEnv Config) (dir : AbsPath)
        (cache : ConfigCache Config) (contents : String),
      env.hasClient = true →
      lookupCache cache dir = none →
      env.readFile (kConfigName :: dir) = some contents →
      (parseConfig env (kConfigName :: dir) contents (inheritedConfig env dir cache) false).2 =
        none →
      eventsFor (kConfigName :: dir) (readConfigRec env dir cache).2.2 =
        [⟨kConfigName :: dir, none, []⟩]) ∧
    (∀ (Config : Type) (env : ResolverEnv Config) (dir : AbsPath)
        (cache : ConfigCache Config) (contents e : String),
      env.hasClient = true →
      lookupCache cache dir = none →
      env.readFile (kConfigName :: dir) = none →
      env.readFile (robloxRcName :: dir) = some contents →
      (parseConfig env (robloxRcName :: dir) contents (inheritedConfig env dir cache) true).2 =
        some e →
      eventsFor (robloxRcName :: dir) (readConfigRec env dir cache).2.2 =
        [⟨robloxRcName :: dir, none, [mkConfigErrorDiagnostic e]⟩]) ∧
    (∀ (Config : Type) (env : ResolverEnv Config) (dir : AbsPath)
        (cache : ConfigCache Config) (contents : String),
      env.hasClient = true →
      lookupCache cache dir = none →
      env.readFile (kConfigName :: dir) = none →
      env.readFile (robloxRcName :: dir) = some contents →
      (parseConfig env (robloxRcName :: dir) contents (inheritedConfig env dir cache) true).2 =
        none →
      eventsFor (robloxRcName :: dir) (readConfigRec env dir cache).2.2 =
        [⟨robloxRcName :: dir, none, []⟩]) := by
  refine ⟨?_, ?_, ?_, ?_⟩
  · intro Config env dir cache contents e hcl hmiss hread hparse
    cases dir with
    | nil =>
      simp only [inheritedConfig] at hparse
      simp [readConfigRec, hmiss, readConfigStep, hread, hparse,
        publishConfigDiagnostics, hcl, eventsFor]
    | cons seg parent =>
      simp only [inheritedConfig] at hparse
      simp only [readConfigRec, hmiss, readConfigStep, hread, hparse]
      rw [eventsFor_append, eventsFor_parent_filter_nil]
      simp [publishConfigDiagnostics, hcl, eventsFor]
  · intro Config env dir cache contents hcl hmiss hread hparse
    cases dir with
    | nil =>
      simp only [inheritedConfig] at hparse
      simp [readConfigRec, hmiss, readConfigStep, hread, hparse,
        publishConfigDiagnostics, hcl, eventsFor]
    | cons seg parent =>
      simp only [inheritedConfig] at hparse
      simp only [readConfigRec, hmiss, readConfigStep, hread, hparse]
      rw [eventsFor_append, eventsFor_parent_filter_nil]
      simp [publishConfigDiagnostics, hcl, eventsFor]
  · intro Config env dir cache contents e hcl hmiss hread1 hread2 hparse
    cases dir with
    | nil =>
      simp only [inheritedConfig] at hparse
      simp [readConfigRec, hmiss, readConfigStep, hread1, hread2, hparse,
        publishConfigDiagnostics, hcl, eventsFor]
    | cons seg parent =>
      simp only [inheritedConfig] at hparse
      simp only [readConfigRec, hmiss, readConfigStep, hread1, hread2, hparse]
      rw [eventsFor_append, eventsFor_parent_filter_nil]
      simp [publishConfigDiagnostics, hcl, eventsFor]
  · intro Config env dir cache contents hcl hmiss hread1 hread2 hparse
    cases dir with
    | nil =>
      simp only [inheritedConfig] at hparse
      simp [readConfigRec, hmiss, readConfigStep, hread1, hread2, hparse,
        publishConfigDiagnostics, hcl, eventsFor]
    | cons seg parent =>
      simp only [inheritedConfig] at hparse
      simp only [readConfigRec, hmiss, readConfigStep, hread1, hread2, hparse]
      rw [eventsFor_append, eventsFor_parent_filter_nil]
      simp [publishConfigDiagnostics, hcl, eventsFor]

/-- C6 witness: in the world whose `/d/.luaurc` fails to parse with error
`"bad"`, resolving `/d` publishes exactly the single error diagnostic for
that file's URI. -/
theorem c6_witness :
    eventsFor (kConfigName :: ["d"]) (readConfigRec resolverBadConfig ["d"] []).2.2 =
      [⟨kConfigName :: ["d"], none, [mkConfigErrorDiagnostic "bad"]⟩] :=
  c6_diagnostic_lifecycle.1 Bool resolverBadConfig ["d"] [] "broken" "bad"
    (by decide) (by decide) (by decide) (by decide)

/-- C2 counterexample: the legacy `.robloxrc` file is read by
`readConfigRec`'s inheritance lookup (the resolved config flips from the
inherited default) yet the navigation ambiguity check `getConfigStatus`
reports `Absent` for a directory containing exactly that file — so the two
filename sets are not the same, refuting the claimed consistency. -/
theorem c2_counterexample :
    cacheReadsConfigFile robloxRcName = true ∧
    navRecognizesConfigFile robloxRcName = false := by
  decide

/-- C2 (amended). The two layers share only the primary config filename:
both recognize `kConfigName`; the navigation ambiguity check additionally
recognizes `kLuauConfigName`, which `readConfigRec` never reads; and
`readConfigRec` additionally reads `.robloxrc`, which `getConfigStatus`
reports as `Absent`. -/
theorem c2_config_filename_sets :
    navRecognizesConfigFile kConfigName = true ∧
    cacheReadsConfigFile kConfigName = true ∧
    navRecognizesConfigFile kLuauConfigName = true ∧
    cacheReadsConfigFile kLuauConfigName = false ∧
    navRecognizesConfigFile robloxRcName = false ∧
    cacheReadsConfigFile robloxRcName = true := by
  decide

end LuauLsp
